import Mathlib

/-!
Shallow embedding of the historical-deduplication core of `src/app.py`
(the Real Intent "Existing Lead Remover").

The embedding mirrors the Python code function by function:

* a pandas `DataFrame` becomes a list of column names plus positional rows;
* Python exceptions (`KeyError` from column indexing, `ValueError` from
  `pd.concat([])`, `requests.HTTPError` from `raise_for_status`) become an
  explicit `Except PError` result, with error propagation written out so
  that the first exception raised by the Python code is the error returned
  here;
* the remote Couchdrop store is a value of type `Remote` describing what the
  two HTTP endpoints the code calls would answer;
* `ThreadPoolExecutor.map` keeps input order and re-raises the first
  exception in input order when the results are forced by `list(...)`, so it
  is embedded as an in-order traversal.
-/

namespace Deduper

/-- Whitespace test matching the characters removed by Python `str.strip`. -/
def isSpaceChar (c : Char) : Bool :=
  c.toNat == 32 || c.toNat == 9 || c.toNat == 10 || c.toNat == 13 ||
    c.toNat == 11 || c.toNat == 12

/-- ASCII lower-casing of one character, as Python `str.lower` does on ASCII. -/
def lowerChar (c : Char) : Char :=
  if 65 ≤ c.toNat && c.toNat ≤ 90 then Char.ofNat (c.toNat + 32) else c

/-- Embedding of `email.strip().lower()` from `main` (src/app.py line 107). -/
def strip_lower (s : String) : String :=
  String.mk ((((s.data.dropWhile isSpaceChar).reverse.dropWhile
    isSpaceChar).reverse).map lowerChar)

/-- Embedding of Python `str.endswith` used by the `.csv` filter
(src/app.py line 32). -/
def str_endswith (s suf : String) : Bool :=
  s.data.drop (s.data.length - suf.data.length) == suf.data

/-- A cell value as parsed from a CSV file; the identity keys used by the app
(the `md5` column) are plain strings, so values are modelled as strings, with
the empty string standing for a missing value (NaN). -/
abbrev Value := String

/-- Embedding of a pandas `DataFrame`: an ordered list of column names and
rows given positionally, exactly the shape `pd.read_csv` produces from a CSV
file with a header row. -/
structure DataFrame where
  cols : List String
  rows : List (List Value)
deriving Repr, DecidableEq

/-- The Python exceptions the embedded code can raise: `KeyError` from
indexing a missing column, `ValueError` from `pd.concat` on an empty list,
and `requests.HTTPError` from `Response.raise_for_status`. -/
inductive PError where
  | keyError (key : String)
  | valueError (msg : String)
  | httpError (status : Nat)
deriving Repr, DecidableEq

instance instDecEqExcept {ε α : Type} [DecidableEq ε] [DecidableEq α] :
    DecidableEq (Except ε α) := fun x y =>
  match x, y with
  | .error a, .error b =>
    if h : a = b then .isTrue (by rw [h])
    else .isFalse (fun hc => h (by injection hc))
  | .error _, .ok _ => .isFalse (fun hc => Except.noConfusion hc)
  | .ok _, .error _ => .isFalse (fun hc => Except.noConfusion hc)
  | .ok a, .ok b =>
    if h : a = b then .isTrue (by rw [h])
    else .isFalse (fun hc => h (by injection hc))

/-- One entry of the listing returned by the Couchdrop `file/ls` endpoint;
the code only ever reads its `filename` field (src/app.py lines 32, 63). -/
structure FileMeta where
  filename : String
deriving Repr, DecidableEq

/-- The remote Couchdrop store as observed through the two endpoints the code
calls for one user directory: the status and body of the listing request, and
per path the status and parsed CSV content of the download request. -/
structure Remote where
  lsStatus : Nat
  lsFiles : List FileMeta
  dl : String → Nat × DataFrame

/-- Index of the first column named `key`, as pandas column lookup finds it;
`none` means indexing `df[key]` raises `KeyError`. -/
def colIdx (key : String) : List String → Option Nat
  | [] => none
  | c :: rest => if c == key then some 0 else (colIdx key rest).map (· + 1)

/-- Positional cell access inside one row, with the missing-value fallback
pandas uses when a row is shorter than the header. -/
def getVal : List Value → Nat → Value
  | [], _ => ("")
  | v :: _, 0 => v
  | _ :: rest, n + 1 => getVal rest n

/-- Boolean membership in a list of values, as `Series.isin` tests one cell
against the collection of historical key values. -/
def memb (v : Value) : List Value → Bool
  | [] => false
  | x :: rest => x == v || memb v rest

/-- The value sequence of column `key` of a dataframe, empty when the column
is absent; this is the payload `df[key]` carries when it succeeds. -/
def keyColumn (df : DataFrame) (key : String) : List Value :=
  match colIdx key df.cols with
  | some i => df.rows.map (fun r => getVal r i)
  | none => []

/-- Embedding of pandas column selection `df[key]`: the column values in row
order, or `KeyError` when no column has that name. -/
def getColumn (df : DataFrame) (key : String) : Except PError (List Value) :=
  match colIdx key df.cols with
  | some i => .ok (df.rows.map (fun r => getVal r i))
  | none => .error (.keyError key)

/-- Embedding of `_is_same_file` (src/app.py lines 70-72):
`df1[dedupe_key].equals(df2[dedupe_key])`, where `Series.equals` is equality
of the value sequences; `df1` is indexed before `df2`, so a missing column in
`df1` raises first, as in Python. -/
def is_same_file (df1 df2 : DataFrame) (dedupe_key : String) :
    Except PError Bool :=
  match getColumn df1 dedupe_key with
  | .error e => .error e
  | .ok c1 =>
    match getColumn df2 dedupe_key with
    | .error e => .error e
    | .ok c2 => .ok (c1 == c2)

/-- Embedding of the list comprehension at src/app.py lines 81-83: the
existing dataframes that are not the same file as `new_df`, in order, with
the first exception raised inside `_is_same_file` propagated. -/
def foreign_existing_dfs (new_df : DataFrame) :
    List DataFrame → String → Except PError (List DataFrame)
  | [], _ => .ok []
  | df :: rest, key =>
    match is_same_file new_df df key with
    | .error e => .error e
    | .ok same =>
      match foreign_existing_dfs new_df rest key with
      | .error e => .error e
      | .ok others => .ok (if same then others else df :: others)

/-- Column union in order of first appearance, as `pd.concat` computes the
columns of the combined frame. -/
def unionColsAux : List String → List DataFrame → List String
  | acc, [] => acc
  | acc, df :: rest =>
    unionColsAux (acc ++ df.cols.filter (fun c => !(memb c acc))) rest

/-- Columns of the dataframe produced by `pd.concat`. -/
def unionCols (dfs : List DataFrame) : List String := unionColsAux [] dfs

/-- Re-alignment of one positional row from a frame with columns `dcols` to
the concatenated frame with columns `ucols`; columns the source frame lacks
are filled with the missing value, as `pd.concat` fills NaN. -/
def alignRow (ucols dcols : List String) (r : List Value) : List Value :=
  ucols.map (fun c =>
    match colIdx c dcols with
    | some i => getVal r i
    | none => (""))

/-- Rows of the concatenated frame: each source frame contributes its rows in
order, re-aligned to the union columns. -/
def concatRows (ucols : List String) : List DataFrame → List (List Value)
  | [] => []
  | df :: rest => df.rows.map (alignRow ucols df.cols) ++ concatRows ucols rest

/-- The dataframe `pd.concat(dfs, ignore_index=True)` builds when `dfs` is
not empty. -/
def concatDF (dfs : List DataFrame) : DataFrame :=
  { cols := unionCols dfs, rows := concatRows (unionCols dfs) dfs }

/-- The message of the `ValueError` pandas raises from `pd.concat([])`. -/
def concatErrMsg : String := "No objects to concatenate"

/-- Embedding of `pd.concat(dfs, ignore_index=True)` (src/app.py line 85):
raises `ValueError` on an empty list of frames, else concatenates. -/
def concat (dfs : List DataFrame) : Except PError DataFrame :=
  if dfs.isEmpty then .error (.valueError concatErrMsg)
  else .ok (concatDF dfs)

/-- Embedding of the boolean-mask filter at src/app.py line 86:
`new_df[~new_df[key].isin(vals)]` keeps, in order and with all columns, the
rows whose key value is not among `vals`; `KeyError` when `new_df` lacks the
column. -/
def filterNotIn (df : DataFrame) (key : String) (vals : List Value) :
    Except PError DataFrame :=
  match colIdx key df.cols with
  | some i =>
    .ok { cols := df.cols
          rows := df.rows.filter (fun r => !(memb (getVal r i) vals)) }
  | none => .error (.keyError key)

/-- Embedding of `remove_duplicates` (src/app.py lines 75-87): drop existing
frames that are the same file as `new_df`, concatenate the rest, and keep the
rows of `new_df` whose key value does not occur in the combined key column. -/
def remove_duplicates (new_df : DataFrame) (existing_dfs : List DataFrame)
    (dedupe_key : String) : Except PError DataFrame :=
  match foreign_existing_dfs new_df existing_dfs dedupe_key with
  | .error e => .error e
  | .ok foreign =>
    match concat foreign with
    | .error e => .error e
    | .ok combined =>
      match getColumn combined dedupe_key with
      | .error e => .error e
      | .ok vals => filterNotIn new_df dedupe_key vals

/-- The key values contributed by a list of frames, in frame order then row
order; this is the key column of their concatenation. -/
def foreignVals (key : String) : List DataFrame → List Value
  | [] => []
  | df :: rest => keyColumn df key ++ foreignVals key rest

/-- Embedding of `Response.raise_for_status`: the `requests` library raises
`HTTPError` exactly for status codes 400 and above. -/
def raise_for_status (status : Nat) : Except PError Unit :=
  if 400 ≤ status then .error (.httpError status) else .ok ()

/-- The suffix the listing filter tests for. -/
def csvSuffix : String := ".csv"

/-- Embedding of `_list_user_csvs` (src/app.py lines 22-32): raise on a
non-success listing response, else keep the files whose name ends in `.csv`.
The email only selects the remote directory, which `Remote` already fixes. -/
def list_user_csvs (r : Remote) (_email : String) :
    Except PError (List FileMeta) :=
  match raise_for_status r.lsStatus with
  | .error e => .error e
  | .ok _ => .ok (r.lsFiles.filter (fun f => str_endswith f.filename csvSuffix))

/-- Embedding of `_build_path` (src/app.py lines 62-63). -/
def build_path (email : String) (f : FileMeta) : String :=
  ("/Real_Intent/Customers/") ++ email ++ ("/") ++ f.filename

/-- Embedding of `_download_csv` (src/app.py lines 35-47): raise on a
non-success download response, else the parsed CSV content. -/
def download_csv (r : Remote) (path : String) : Except PError DataFrame :=
  match raise_for_status (r.dl path).1 with
  | .error e => .error e
  | .ok _ => .ok (r.dl path).2

/-- Observable behaviour of `list(executor.map(f, inputs))` (src/app.py lines
66-67): results come back in input order, and the first exception in input
order is re-raised when the iterator is forced. -/
def executorMap {α β : Type} (f : α → Except PError β) :
    List α → Except PError (List β)
  | [] => .ok []
  | a :: rest =>
    match f a with
    | .error e => .error e
    | .ok b =>
      match executorMap f rest with
      | .error e => .error e
      | .ok bs => .ok (b :: bs)

/-- The `download_inputs` list of src/app.py line 65: the resolved path of
every listed `.csv` file, in listing order. -/
def download_inputs (r : Remote) (email : String) :
    Except PError (List String) :=
  match list_user_csvs r email with
  | .error e => .error e
  | .ok files => .ok (files.map (build_path email))

/-- Embedding of `download_user_csvs` (src/app.py lines 50-67). -/
def download_user_csvs (r : Remote) (email : String) :
    Except PError (List DataFrame) :=
  match download_inputs r email with
  | .error e => .error e
  | .ok paths => executorMap (download_csv r) paths

/-- The configured dedupe keys (src/app.py line 19), a one-element set. -/
def DEDUPE_KEYS : List String := [("md5")]

/-- The per-key loop of `main` (src/app.py lines 121-123), threading the
cleaned frame through `remove_duplicates` once per key. -/
def dedupe_loop (existing : List DataFrame) :
    DataFrame → List String → Except PError DataFrame
  | acc, [] => .ok acc
  | acc, key :: rest =>
    match remove_duplicates acc existing key with
    | .error e => .error e
    | .ok acc2 => dedupe_loop existing acc2 rest

/-- The deduplication pipeline of `main` (src/app.py lines 105-125): normalise
the email, download the history, return the upload untouched when no file was
found, else run the per-key filter loop. -/
def run (r : Remote) (email : String) (df : DataFrame) :
    Except PError DataFrame :=
  match download_user_csvs r (strip_lower email) with
  | .error e => .error e
  | .ok existing =>
    if existing.isEmpty then .ok df
    else dedupe_loop existing df DEDUPE_KEYS

/-! Concrete record sets and remote stores used to evaluate the embedded code
on explicit inputs. -/

/-- A two-row upload keyed by `md5`. -/
def dfAB : DataFrame := ⟨[("md5")], [[("a")], [("b")]]⟩

/-- A historical file with the same `md5` column as `dfAB`. -/
def dfABCopy : DataFrame := ⟨[("md5")], [[("a")], [("b")]]⟩

/-- A one-row historical file sharing the value `b` with `dfAB`. -/
def dfOnlyB : DataFrame := ⟨[("md5")], [[("b")]]⟩

/-- The frame `dfAB` filtered against `dfOnlyB`. -/
def dfOnlyA : DataFrame := ⟨[("md5")], [[("a")]]⟩

/-- A parsed historical file used as download content. -/
def dfHistA : DataFrame := ⟨[("md5")], [[("h1")]]⟩

/-- A second parsed historical file used as download content. -/
def dfHistB : DataFrame := ⟨[("md5")], [[("h2")]]⟩

/-- A remote store listing two CSV files where the second download fails with
status 500. -/
def rTwoOneBad : Remote :=
  ⟨200, [⟨("a.csv")⟩, ⟨("b.csv")⟩],
    fun p => if p == ("/Real_Intent/Customers/e/a.csv") then (200, dfHistA)
      else (500, dfHistB)⟩

/-- A remote store listing one CSV file whose single download fails. -/
def rOneBad : Remote := ⟨200, [⟨("a.csv")⟩], fun _ => (502, dfHistA)⟩

/-- A remote store whose only listed CSV file carries the name of the current
upload. -/
def rUploadNamed : Remote := ⟨200, [⟨("upload.csv")⟩], fun _ => (200, dfHistA)⟩

/-- A remote store whose listing call fails with status 503. -/
def rListDown : Remote := ⟨503, [], fun _ => (200, dfHistA)⟩

/-- A remote store that lists one file, which is not a CSV file. -/
def rNoCsv : Remote := ⟨200, [⟨("readme.txt")⟩], fun _ => (200, dfHistA)⟩

/-- A remote store with two CSV files, one other file, and working downloads. -/
def rTwoGood : Remote :=
  ⟨200, [⟨("a.csv")⟩, ⟨("notes.txt")⟩, ⟨("b.csv")⟩],
    fun p => if p == ("/Real_Intent/Customers/e/a.csv") then (200, dfHistA)
      else (200, dfHistB)⟩

/-- A one-row upload keyed by `md5`, with a second column. -/
def dfWide : DataFrame := ⟨[("md5"), ("phone")], [[("a"), ("111")]]⟩

/-- A historical file with the same `md5` values as `dfWide` but a different
second column and different values there. -/
def dfWideTwin : DataFrame := ⟨[("md5"), ("email")], [[("a"), ("x@y.z")]]⟩

/-- A historical file with `md5` values disjoint from `dfWide`. -/
def dfZOnly : DataFrame := ⟨[("md5")], [[("z")]]⟩

/-- An upload lacking the `md5` column. -/
def dfNoKey : DataFrame := ⟨[("phone")], [[("111")]]⟩


/-! Helper lemmas about column indexing and membership. -/

theorem colIdx_some_mem {key : String} :
    ∀ {l : List String} {i : Nat}, colIdx key l = some i → key ∈ l := by
  intro l
  induction l with
  | nil => intro i h; simp [colIdx] at h
  | cons c rest ih =>
    intro i h
    by_cases hc : (c == key) = true
    · have hck : c = key := by simpa using hc
      simp [hck]
    · simp only [colIdx, hc, if_neg, Bool.false_eq_true, if_false] at h
      rw [Option.map_eq_some'] at h
      rcases h with ⟨j, hj, _⟩
      exact List.mem_cons_of_mem _ (ih hj)

theorem mem_colIdx_isSome {key : String} :
    ∀ {l : List String}, key ∈ l → ∃ i, colIdx key l = some i := by
  intro l
  induction l with
  | nil => intro h; simp at h
  | cons c rest ih =>
    intro h
    by_cases hc : (c == key) = true
    · exact ⟨0, by simp [colIdx, hc]⟩
    · have hkr : key ∈ rest := by
        rcases List.mem_cons.mp h with h1 | h1
        · exact absurd (by simp [h1] : (c == key) = true) hc
        · exact h1
      rcases ih hkr with ⟨j, hj⟩
      exact ⟨j + 1, by simp [colIdx, hc, hj]⟩

theorem memb_iff {c : String} : ∀ {l : List String}, memb c l = true ↔ c ∈ l := by
  intro l
  induction l with
  | nil => simp [memb]
  | cons x rest ih =>
    simp [memb, ih, Bool.or_eq_true, beq_iff_eq]
    constructor
    · rintro (h | h)
      · simp [h]
      · simp [h]
    · rintro (h | h)
      · simp [h]
      · simp [h]

theorem mem_unionColsAux_of_acc {c : String} :
    ∀ (dfs : List DataFrame) (acc : List String), c ∈ acc →
      c ∈ unionColsAux acc dfs := by
  intro dfs
  induction dfs with
  | nil => intro acc h; simpa [unionColsAux] using h
  | cons df rest ih =>
    intro acc h
    exact ih _ (List.mem_append_left _ h)

theorem mem_unionColsAux_of_mem {c : String} :
    ∀ (dfs : List DataFrame) (acc : List String) (df : DataFrame),
      df ∈ dfs → c ∈ df.cols → c ∈ unionColsAux acc dfs := by
  intro dfs
  induction dfs with
  | nil => intro acc df h; simp at h
  | cons d rest ih =>
    intro acc df hmem hc
    show c ∈ unionColsAux (acc ++ d.cols.filter (fun x => !(memb x acc))) rest
    rcases List.mem_cons.mp hmem with h1 | h1
    · subst h1
      by_cases hacc : memb c acc = true
      · exact mem_unionColsAux_of_acc _ _ (List.mem_append_left _ (memb_iff.mp hacc))
      · refine mem_unionColsAux_of_acc _ _ (List.mem_append_right _ ?_)
        exact List.mem_filter.mpr ⟨hc, by simp [hacc]⟩
    · exact ih _ df h1 hc

theorem alignRow_getVal {key : String} {dcols : List String} {r : List Value}
    {i : Nat} (hd : colIdx key dcols = some i) :
    ∀ (ucols : List String) (j : Nat), colIdx key ucols = some j →
      getVal (alignRow ucols dcols r) j = getVal r i := by
  intro ucols
  induction ucols with
  | nil => intro j h; simp [colIdx] at h
  | cons c rest ih =>
    intro j h
    by_cases hc : (c == key) = true
    · have hck : c = key := by simpa using hc
      simp only [colIdx, hc, if_true] at h
      cases h
      simp [alignRow, hck, getVal, hd]
    · simp only [colIdx, hc, Bool.false_eq_true, if_false] at h
      rw [Option.map_eq_some'] at h
      rcases h with ⟨j0, hj0, rfl⟩
      have := ih j0 hj0
      simpa [alignRow, getVal] using this

theorem concatRows_map_getVal {key : String} {ucols : List String} {j : Nat}
    (hu : colIdx key ucols = some j) :
    ∀ (dfs : List DataFrame), (∀ df ∈ dfs, key ∈ df.cols) →
      (concatRows ucols dfs).map (fun r => getVal r j) = foreignVals key dfs := by
  intro dfs
  induction dfs with
  | nil => intro _; simp [concatRows, foreignVals]
  | cons df rest ih =>
    intro hcols
    have hk : key ∈ df.cols := hcols df (List.mem_cons_self _ _)
    rcases mem_colIdx_isSome hk with ⟨i, hi⟩
    have hrest := ih (fun d hd => hcols d (List.mem_cons_of_mem _ hd))
    simp only [concatRows, foreignVals, List.map_append, hrest, List.map_map]
    congr 1
    · rw [keyColumn, hi]
      apply List.map_congr_left
      intro r _
      exact alignRow_getVal hi ucols j hu

theorem getColumn_concatDF {key : String} {dfs : List DataFrame}
    (hne : dfs ≠ []) (hcols : ∀ df ∈ dfs, key ∈ df.cols) :
    getColumn (concatDF dfs) key = .ok (foreignVals key dfs) := by
  have hmem : key ∈ unionCols dfs := by
    cases dfs with
    | nil => exact absurd rfl hne
    | cons df rest =>
      exact mem_unionColsAux_of_mem _ _ df (List.mem_cons_self _ _)
        (hcols df (List.mem_cons_self _ _))
  rcases mem_colIdx_isSome hmem with ⟨j, hj⟩
  simp only [getColumn, concatDF, hj]
  rw [concatRows_map_getVal hj dfs hcols]

theorem getColumn_ok_inv {df : DataFrame} {key : String} {c : List Value}
    (h : getColumn df key = .ok c) :
    ∃ i, colIdx key df.cols = some i ∧ c = df.rows.map (fun r => getVal r i) := by
  cases hi : colIdx key df.cols with
  | none => simp [getColumn, hi] at h
  | some i =>
    refine ⟨i, rfl, ?_⟩
    simp [getColumn, hi] at h
    exact h.symm

theorem getColumn_of_colIdx {df : DataFrame} {key : String} {i : Nat}
    (hi : colIdx key df.cols = some i) :
    getColumn df key = .ok (keyColumn df key) := by
  simp [getColumn, keyColumn, hi]

theorem is_same_file_ok_inv {d1 d2 : DataFrame} {key : String} {b : Bool}
    (h : is_same_file d1 d2 key = .ok b) :
    ∃ c1 c2, getColumn d1 key = .ok c1 ∧ getColumn d2 key = .ok c2 ∧
      b = (c1 == c2) := by
  cases h1 : getColumn d1 key with
  | error e => simp [is_same_file, h1] at h
  | ok c1 =>
    cases h2 : getColumn d2 key with
    | error e => simp [is_same_file, h1, h2] at h
    | ok c2 =>
      simp [is_same_file, h1, h2] at h
      exact ⟨c1, c2, rfl, rfl, h.symm⟩

theorem foreign_ok_mem {nd : DataFrame} {key : String} :
    ∀ {ex l : List DataFrame}, foreign_existing_dfs nd ex key = .ok l →
      ∀ df ∈ l, df ∈ ex ∧ is_same_file nd df key = .ok false := by
  intro ex
  induction ex with
  | nil =>
    intro l h df hdf
    simp [foreign_existing_dfs] at h
    subst h
    simp at hdf
  | cons d rest ih =>
    intro l h df hdf
    cases hs : is_same_file nd d key with
    | error e => simp [foreign_existing_dfs, hs] at h
    | ok b =>
      cases hr : foreign_existing_dfs nd rest key with
      | error e => simp [foreign_existing_dfs, hs, hr] at h
      | ok others =>
        simp only [foreign_existing_dfs, hs, hr] at h
        cases b with
        | true =>
          simp at h
          subst h
          rcases ih hr df hdf with ⟨h1, h2⟩
          exact ⟨List.mem_cons_of_mem _ h1, h2⟩
        | false =>
          simp at h
          subst h
          rcases List.mem_cons.mp hdf with h1 | h1
          · subst h1
            exact ⟨List.mem_cons_self _ _, hs⟩
          · rcases ih hr df h1 with ⟨h2, h3⟩
            exact ⟨List.mem_cons_of_mem _ h2, h3⟩

theorem foreign_ok_cols {nd : DataFrame} {key : String} {ex l : List DataFrame}
    (h : foreign_existing_dfs nd ex key = .ok l) :
    ∀ df ∈ l, key ∈ df.cols := by
  intro df hdf
  rcases foreign_ok_mem h df hdf with ⟨_, hs⟩
  rcases is_same_file_ok_inv hs with ⟨c1, c2, _, h2, _⟩
  rcases getColumn_ok_inv h2 with ⟨i, hi, _⟩
  exact colIdx_some_mem hi

theorem foreign_ok_nd {nd : DataFrame} {key : String} {ex l : List DataFrame}
    (h : foreign_existing_dfs nd ex key = .ok l) (hne : l ≠ []) :
    ∃ i, colIdx key nd.cols = some i := by
  cases l with
  | nil => exact absurd rfl hne
  | cons df rest =>
    rcases foreign_ok_mem h df (List.mem_cons_self _ _) with ⟨_, hs⟩
    rcases is_same_file_ok_inv hs with ⟨c1, c2, h1, _, _⟩
    rcases getColumn_ok_inv h1 with ⟨i, hi, _⟩
    exact ⟨i, hi⟩

theorem foreign_ok_excluded {nd df : DataFrame} {key : String}
    {ex l : List DataFrame} (h : foreign_existing_dfs nd ex key = .ok l)
    (hsame : is_same_file nd df key = .ok true) : df ∉ l := by
  intro hdf
  rcases foreign_ok_mem h df hdf with ⟨_, hfalse⟩
  rw [hsame] at hfalse
  simp at hfalse

theorem rd_eq_filterNotIn {nd : DataFrame} {key : String} {ex l : List DataFrame}
    (h : foreign_existing_dfs nd ex key = .ok l) (hne : l ≠ []) :
    remove_duplicates nd ex key = filterNotIn nd key (foreignVals key l) := by
  have hcols := foreign_ok_cols h
  have hcc : concat l = .ok (concatDF l) := by
    simp [concat, List.isEmpty_iff, hne]
  simp only [remove_duplicates, h, hcc, getColumn_concatDF hne hcols]

theorem rd_spec {nd : DataFrame} {key : String} {ex l : List DataFrame} {i : Nat}
    (h : foreign_existing_dfs nd ex key = .ok l) (hne : l ≠ [])
    (hi : colIdx key nd.cols = some i) :
    remove_duplicates nd ex key = .ok
      { cols := nd.cols
        rows := nd.rows.filter
          (fun r => !(memb (getVal r i) (foreignVals key l))) } := by
  rw [rd_eq_filterNotIn h hne]
  simp [filterNotIn, hi]

theorem executorMap_all_ok {α β : Type} (f : α → Except PError β)
    (g : α → β) : ∀ (l : List α), (∀ a ∈ l, f a = .ok (g a)) →
      executorMap f l = .ok (l.map g) := by
  intro l
  induction l with
  | nil => intro _; simp [executorMap]
  | cons a rest ih =>
    intro h
    have ha := h a (List.mem_cons_self _ _)
    have hrest := ih (fun x hx => h x (List.mem_cons_of_mem _ hx))
    simp [executorMap, ha, hrest]

theorem executorMap_mem_error {α β : Type} (f : α → Except PError β) :
    ∀ (l : List α) (a : α), a ∈ l → (∃ e0, f a = .error e0) →
      ∃ e, executorMap f l = .error e := by
  intro l
  induction l with
  | nil => intro a h; simp at h
  | cons x rest ih =>
    intro a hmem ⟨e0, he0⟩
    cases hx : f x with
    | error e => exact ⟨e, by simp [executorMap, hx]⟩
    | ok b =>
      have har : a ∈ rest := by
        rcases List.mem_cons.mp hmem with h1 | h1
        · subst h1; rw [hx] at he0; exact absurd he0 (by simp)
        · exact h1
      rcases ih a har ⟨e0, he0⟩ with ⟨e, he⟩
      exact ⟨e, by simp [executorMap, hx, he]⟩

theorem foreign_error_nd_missing {nd : DataFrame} {key : String}
    (hnd : colIdx key nd.cols = none) :
    ∀ (d : DataFrame) (rest : List DataFrame),
      foreign_existing_dfs nd (d :: rest) key = .error (.keyError key) := by
  intro d rest
  simp [foreign_existing_dfs, is_same_file, getColumn, hnd]

theorem foreign_error_df_missing {nd : DataFrame} {key : String} {i : Nat}
    (hnd : colIdx key nd.cols = some i) :
    ∀ (ex : List DataFrame), (∃ df ∈ ex, colIdx key df.cols = none) →
      foreign_existing_dfs nd ex key = .error (.keyError key) := by
  intro ex
  induction ex with
  | nil => intro ⟨df, h, _⟩; simp at h
  | cons d rest ih =>
    intro ⟨df, hmem, hdf⟩
    cases hd : colIdx key d.cols with
    | none =>
      simp [foreign_existing_dfs, is_same_file, getColumn, hnd, hd]
    | some j =>
      have hdr : df ∈ rest := by
        rcases List.mem_cons.mp hmem with h1 | h1
        · subst h1; rw [hd] at hdf; exact absurd hdf (by simp)
        · exact h1
      have hrest := ih ⟨df, hdr, hdf⟩
      simp [foreign_existing_dfs, is_same_file, getColumn, hnd, hd, hrest]

theorem rd_nil (nd : DataFrame) (key : String) :
    remove_duplicates nd [] key = .error (.valueError concatErrMsg) := rfl

theorem foreign_ok_all {nd : DataFrame} {key : String} :
    ∀ {ex l : List DataFrame}, foreign_existing_dfs nd ex key = .ok l →
      ∀ df ∈ ex, ∃ b, is_same_file nd df key = .ok b := by
  intro ex
  induction ex with
  | nil => intro l _ df h; simp at h
  | cons d rest ih =>
    intro l h df hdf
    cases hs : is_same_file nd d key with
    | error e => simp [foreign_existing_dfs, hs] at h
    | ok b =>
      cases hr : foreign_existing_dfs nd rest key with
      | error e => simp [foreign_existing_dfs, hs, hr] at h
      | ok others =>
        rcases List.mem_cons.mp hdf with h1 | h1
        · subst h1; exact ⟨b, hs⟩
        · exact ih hr df h1

theorem excluded_of_keyColumn_eq {nd df : DataFrame} {key : String}
    {ex l : List DataFrame} (hl : foreign_existing_dfs nd ex key = .ok l)
    (hmem : df ∈ ex) (heq : keyColumn df key = keyColumn nd key) : df ∉ l := by
  rcases foreign_ok_all hl df hmem with ⟨b, hb⟩
  rcases is_same_file_ok_inv hb with ⟨c1, c2, h1, h2, h3⟩
  rcases getColumn_ok_inv h1 with ⟨i1, hi1, hc1⟩
  rcases getColumn_ok_inv h2 with ⟨i2, hi2, hc2⟩
  have hk1 : c1 = keyColumn nd key := by rw [keyColumn, hi1, hc1]
  have hk2 : c2 = keyColumn df key := by rw [keyColumn, hi2, hc2]
  have hbt : b = true := by
    rw [h3, hk1, hk2, heq]
    simp
  subst hbt
  exact foreign_ok_excluded hl hb

theorem rd_ok_inv {nd : DataFrame} {key : String} {ex : List DataFrame}
    {R : DataFrame} (h : remove_duplicates nd ex key = .ok R) :
    ∃ l i, foreign_existing_dfs nd ex key = .ok l ∧ l ≠ [] ∧
      colIdx key nd.cols = some i ∧
      R = { cols := nd.cols
            rows := nd.rows.filter
              (fun r => !(memb (getVal r i) (foreignVals key l))) } := by
  cases hf : foreign_existing_dfs nd ex key with
  | error e => simp [remove_duplicates, hf] at h
  | ok l =>
    cases l with
    | nil => simp [remove_duplicates, hf, concat, concatErrMsg] at h
    | cons d rest =>
      have hne : (d :: rest) ≠ ([] : List DataFrame) := by simp
      rcases foreign_ok_nd hf hne with ⟨i, hi⟩
      rw [rd_spec hf hne hi] at h
      injection h with h
      exact ⟨_, _, rfl, hne, hi, h.symm⟩

/-- C1 counterexample: with two listed files where only the second download
fails, `download_user_csvs` raises the fetch error instead of returning the
successful frame together with an error entry. -/
theorem c1_counterexample :
    download_user_csvs rTwoOneBad ("e") = .error (.httpError 500) ∧
    download_user_csvs rTwoOneBad ("e") ≠ .ok [dfHistA] := by decide

/-- C1 (amended): a failed fetch of any listed CSV file aborts the whole
batch load with an error; no partial result and no error sequence exist. -/
theorem c1_fetch_failure_aborts (r : Remote) (email : String) (f : FileMeta)
    (hls : r.lsStatus < 400)
    (hmem : f ∈ r.lsFiles.filter (fun g => str_endswith g.filename csvSuffix))
    (hbad : 400 ≤ (r.dl (build_path email f)).1) :
    ∃ e, download_user_csvs r email = .error e := by
  have hdc : ∃ e0, download_csv r (build_path email f) = .error e0 :=
    ⟨.httpError (r.dl (build_path email f)).1, by
      simp [download_csv, raise_for_status, hbad]⟩
  have hpmem : build_path email f ∈
      (r.lsFiles.filter (fun g => str_endswith g.filename csvSuffix)).map
        (build_path email) := List.mem_map_of_mem _ hmem
  rcases executorMap_mem_error (download_csv r) _ _ hpmem hdc with ⟨e, he⟩
  refine ⟨e, ?_⟩
  simp [download_user_csvs, download_inputs, list_user_csvs, raise_for_status,
    Nat.not_le.mpr hls, he]

/-- C1 witness: applying the abort theorem to a concrete store with one
failing download. -/
theorem c1_witness : ∃ e, download_user_csvs rOneBad ("e") = .error e :=
  c1_fetch_failure_aborts rOneBad ("e") ⟨("a.csv")⟩ (by decide) (by decide)
    (by decide)

/-- C2 counterexample: on an empty historical collection `remove_duplicates`
raises the empty-concat `ValueError` instead of returning the batch. -/
theorem c2_counterexample :
    remove_duplicates dfAB [] ("md5") = .error (.valueError concatErrMsg) ∧
    remove_duplicates dfAB [] ("md5") ≠ .ok dfAB := by decide

/-- C2 (amended): for every batch and key, the key-filter applied to an empty
historical collection fails with the empty-concat `ValueError`; the
no-history identity holds only at the orchestrator, which never calls the
key-filter in that case. -/
theorem c2_empty_history_raises (new_df : DataFrame) (dedupe_key : String) :
    remove_duplicates new_df [] dedupe_key =
      .error (.valueError concatErrMsg) :=
  rd_nil new_df dedupe_key

/-- C3 counterexample: when the only historical file has exactly the key
values of the upload, the code raises the empty-concat `ValueError` instead
of returning the upload unchanged. -/
theorem c3_counterexample :
    remove_duplicates dfAB [dfABCopy] ("md5") =
      .error (.valueError concatErrMsg) ∧
    remove_duplicates dfAB [dfABCopy] ("md5") ≠ .ok dfAB := by decide

/-- C3 (amended): every historical frame whose key-column sequence equals the
uploads is excluded from the union before filtering; when at least one
foreign frame remains, the cleaned batch is the upload filtered against the
foreign values only, and when none remains the call fails with the
empty-concat `ValueError` instead of returning the upload. -/
theorem c3_self_exclusion (new_df : DataFrame) (existing_dfs : List DataFrame)
    (dedupe_key : String) (l : List DataFrame)
    (hl : foreign_existing_dfs new_df existing_dfs dedupe_key = .ok l) :
    (∀ df ∈ existing_dfs,
      keyColumn df dedupe_key = keyColumn new_df dedupe_key → df ∉ l) ∧
    (l ≠ [] → remove_duplicates new_df existing_dfs dedupe_key =
      filterNotIn new_df dedupe_key (foreignVals dedupe_key l)) ∧
    (l = [] → remove_duplicates new_df existing_dfs dedupe_key =
      .error (.valueError concatErrMsg)) := by
  refine ⟨?_, ?_, ?_⟩
  · intro df hmem heq
    exact excluded_of_keyColumn_eq hl hmem heq
  · intro hne
    exact rd_eq_filterNotIn hl hne
  · intro hnil
    subst hnil
    simp [remove_duplicates, hl, concat, concatErrMsg]

/-- C3 witness: a historical copy of the upload is excluded while a genuinely
foreign file still drives the filtering. -/
theorem c3_witness :
    dfABCopy ∉ [dfOnlyB] ∧
    remove_duplicates dfAB [dfABCopy, dfOnlyB] ("md5") =
      filterNotIn dfAB ("md5") (foreignVals ("md5") [dfOnlyB]) := by
  have h := c3_self_exclusion dfAB [dfABCopy, dfOnlyB] ("md5") [dfOnlyB]
    (by decide)
  exact ⟨h.1 dfABCopy (by decide) (by decide), h.2.1 (by decide)⟩

/-- C4 counterexample: the loader resolves and fetches a listed file whose
name equals the current uploads filename; the download-input list contains
its path and is not empty. -/
theorem c4_counterexample :
    download_inputs rUploadNamed ("e") =
      .ok [("/Real_Intent/Customers/e/upload.csv")] ∧
    download_inputs rUploadNamed ("e") ≠ .ok [] := by decide

/-- C4 (amended): the batch loader takes no exclude-filename; the path of
every listed `.csv` file, whatever its name, is placed in the download-input
list before fetching. -/
theorem c4_all_csvs_fetched (r : Remote) (email : String) (f : FileMeta)
    (hls : r.lsStatus < 400) (hmem : f ∈ r.lsFiles)
    (hcsv : str_endswith f.filename csvSuffix = true) :
    ∃ paths, download_inputs r email = .ok paths ∧
      build_path email f ∈ paths := by
  refine ⟨(r.lsFiles.filter (fun g => str_endswith g.filename csvSuffix)).map
    (build_path email), ?_, ?_⟩
  · simp [download_inputs, list_user_csvs, raise_for_status,
      Nat.not_le.mpr hls]
  · exact List.mem_map_of_mem _ (List.mem_filter.mpr ⟨hmem, hcsv⟩)

/-- C4 witness: a file carrying the uploads own name is among the fetch
inputs. -/
theorem c4_witness : ∃ paths, download_inputs rUploadNamed ("e") = .ok paths ∧
    build_path ("e") ⟨("upload.csv")⟩ ∈ paths :=
  c4_all_csvs_fetched rUploadNamed ("e") ⟨("upload.csv")⟩ (by decide)
    (by decide) (by decide)

/-- C5 counterexample: filtering twice removes more rows than filtering once,
because the self-exclusion step is recomputed against the already-filtered
batch; here the second pass no longer excludes the historical copy of the
original upload and empties the batch. -/
theorem c5_counterexample :
    remove_duplicates dfAB [dfABCopy, dfOnlyB] ("md5") = .ok dfOnlyA ∧
    remove_duplicates dfOnlyA [dfABCopy, dfOnlyB] ("md5") =
      .ok ⟨[("md5")], []⟩ ∧
    (⟨[("md5")], []⟩ : DataFrame) ≠ dfOnlyA := by decide

/-- C5 (amended): the key-filter is idempotent whenever the self-exclusion
pass selects the same foreign frames for the once-filtered batch as for the
original batch; in general a second application can remove further rows. -/
theorem c5_conditional_idempotence (new_df R : DataFrame)
    (existing_dfs : List DataFrame) (dedupe_key : String)
    (h1 : remove_duplicates new_df existing_dfs dedupe_key = .ok R)
    (h2 : foreign_existing_dfs R existing_dfs dedupe_key =
      foreign_existing_dfs new_df existing_dfs dedupe_key) :
    remove_duplicates R existing_dfs dedupe_key = .ok R := by
  rcases rd_ok_inv h1 with ⟨l, i, hf, hne, hi, hR⟩
  have hf2 : foreign_existing_dfs R existing_dfs dedupe_key = .ok l := by
    rw [h2, hf]
  have hiR : colIdx dedupe_key R.cols = some i := by rw [hR]; exact hi
  rw [rd_spec hf2 hne hiR]
  have hfix : R.rows.filter
      (fun r => !(memb (getVal r i) (foreignVals dedupe_key l))) = R.rows := by
    apply List.filter_eq_self.mpr
    intro r hr
    rw [hR] at hr
    have hr2 : r ∈ new_df.rows.filter
        (fun r => !(memb (getVal r i) (foreignVals dedupe_key l))) := hr
    have hr3 := List.of_mem_filter hr2
    exact hr3
  rw [hfix]

/-- C5 witness: with a history that shares no key sequence with the batch or
its filtered form, a second filter pass returns its input unchanged. -/
theorem c5_witness : remove_duplicates dfOnlyA [dfOnlyB] ("md5") =
    .ok dfOnlyA :=
  c5_conditional_idempotence dfAB dfOnlyA [dfOnlyB] ("md5") (by decide)
    (by decide)

/-- C6: when the identity key is missing from the batch or from any
historical frame, the key-filter pass returns no cleaned batch, and with a
non-empty history the error is precisely the `KeyError` for that key. -/
theorem c6_missing_key_fails (new_df : DataFrame)
    (existing_dfs : List DataFrame) (dedupe_key : String)
    (h : dedupe_key ∉ new_df.cols ∨ ∃ df ∈ existing_dfs, dedupe_key ∉ df.cols) :
    (∀ d, remove_duplicates new_df existing_dfs dedupe_key ≠ .ok d) ∧
    (existing_dfs ≠ [] →
      remove_duplicates new_df existing_dfs dedupe_key =
        .error (.keyError dedupe_key)) := by
  have herr : existing_dfs ≠ [] →
      remove_duplicates new_df existing_dfs dedupe_key =
        .error (.keyError dedupe_key) := by
    intro hne
    cases hex : existing_dfs with
    | nil => exact absurd hex hne
    | cons d rest =>
      cases hnd : colIdx dedupe_key new_df.cols with
      | none =>
        simp [remove_duplicates, foreign_error_nd_missing hnd d rest]
      | some i =>
        rcases h with h1 | ⟨df, hmem, hdf⟩
        · exact absurd (colIdx_some_mem hnd) h1
        · have hdfn : colIdx dedupe_key df.cols = none := by
            cases hdfc : colIdx dedupe_key df.cols with
            | none => rfl
            | some j => exact absurd (colIdx_some_mem hdfc) hdf
          rw [hex] at hmem
          have hfe := foreign_error_df_missing hnd (d :: rest) ⟨df, hmem, hdfn⟩
          simp [remove_duplicates, hfe]
  refine ⟨?_, herr⟩
  intro d hok
  cases hex : existing_dfs with
  | nil =>
    rw [hex] at hok
    rw [rd_nil new_df dedupe_key] at hok
    exact Except.noConfusion hok
  | cons d0 rest =>
    have := herr (by rw [hex]; simp)
    rw [this] at hok
    exact Except.noConfusion hok

/-- C6 witness: a batch lacking the `md5` column fails with the missing-key
error and yields no cleaned batch. -/
theorem c6_witness :
    remove_duplicates dfNoKey [dfHistA] ("md5") =
      .error (.keyError ("md5")) ∧
    remove_duplicates dfNoKey [dfHistA] ("md5") ≠ .ok dfNoKey := by
  have h := c6_missing_key_fails dfNoKey [dfHistA] ("md5")
    (Or.inl (by decide))
  exact ⟨h.2 (by decide), h.1 dfNoKey⟩

/-- C7: a failing listing call makes the catalog lookup and the whole run
fail with the HTTP error, while a successful listing with zero CSV files
makes the run return the upload unchanged; the two outcomes are distinct
constructors of the result type. -/
theorem c7_listing_error_vs_zero_files (r : Remote) (email : String)
    (df : DataFrame) :
    (400 ≤ r.lsStatus →
      list_user_csvs r email = .error (.httpError r.lsStatus) ∧
      run r email df = .error (.httpError r.lsStatus) ∧
      run r email df ≠ .ok df) ∧
    (r.lsStatus < 400 →
      r.lsFiles.filter (fun f => str_endswith f.filename csvSuffix) = [] →
      run r email df = .ok df) := by
  constructor
  · intro h
    have h1 : ∀ em, list_user_csvs r em = .error (.httpError r.lsStatus) := by
      intro em
      simp [list_user_csvs, raise_for_status, h]
    have h2 : run r email df = .error (.httpError r.lsStatus) := by
      simp [run, download_user_csvs, download_inputs, h1]
    refine ⟨h1 email, h2, ?_⟩
    rw [h2]
    exact fun hc => Except.noConfusion hc
  · intro h1 h2
    simp [run, download_user_csvs, download_inputs, list_user_csvs,
      raise_for_status, Nat.not_le.mpr h1, h2, executorMap]

/-- C7 witness: a store whose listing fails with 503 yields that error, and a
store listing only a non-CSV file yields the untouched upload. -/
theorem c7_witness :
    run rListDown ("e") dfAB = .error (.httpError 503) ∧
    run rNoCsv ("e") dfAB = .ok dfAB := by
  refine ⟨?_, ?_⟩
  · exact ((c7_listing_error_vs_zero_files rListDown ("e") dfAB).1
      (by decide)).2.1
  · exact (c7_listing_error_vs_zero_files rNoCsv ("e") dfAB).2 (by decide)
      (by decide)

/-- C8 counterexample: with a non-empty history whose only frame matches the
batch on the key, the key present everywhere, the code fails on the empty
concat instead of returning the sub-sequence of batch rows (here the whole
batch, the foreign union being empty). -/
theorem c8_counterexample :
    remove_duplicates dfOnlyA [dfOnlyA] ("md5") =
      .error (.valueError concatErrMsg) ∧
    remove_duplicates dfOnlyA [dfOnlyA] ("md5") ≠ .ok dfOnlyA := by decide

/-- C8 (amended): when at least one foreign frame survives self-exclusion,
the key-filter returns exactly the rows of the batch whose key value is not
in the union of the foreign key values, with the original column list, and
the surviving rows form a sub-sequence of the original rows. -/
theorem c8_filter_characterization (new_df : DataFrame)
    (existing_dfs : List DataFrame) (dedupe_key : String) (l : List DataFrame)
    (i : Nat)
    (hl : foreign_existing_dfs new_df existing_dfs dedupe_key = .ok l)
    (hne : l ≠ []) (hi : colIdx dedupe_key new_df.cols = some i) :
    remove_duplicates new_df existing_dfs dedupe_key = .ok
      { cols := new_df.cols
        rows := new_df.rows.filter
          (fun r => !(memb (getVal r i) (foreignVals dedupe_key l))) } ∧
    (new_df.rows.filter
      (fun r => !(memb (getVal r i) (foreignVals dedupe_key l)))).Sublist
        new_df.rows :=
  ⟨rd_spec hl hne hi, List.filter_sublist _⟩

/-- C8 witness: the spec scenario, one foreign file sharing one key value. -/
theorem c8_witness : remove_duplicates dfAB [dfOnlyB] ("md5") = .ok dfOnlyA := by
  have h := c8_filter_characterization dfAB [dfOnlyB] ("md5") [dfOnlyB] 0
    (by decide) (by decide) (by decide)
  rw [h.1]
  decide

/-- C9: when the listing succeeds and every fetch succeeds, the loader
returns one frame per listed CSV file in listing order, the i-th frame being
the parsed content of the i-th listed file. -/
theorem c9_download_order_preserved (r : Remote) (email : String)
    (hls : r.lsStatus < 400)
    (hok : ∀ f ∈ r.lsFiles.filter (fun g => str_endswith g.filename csvSuffix),
      (r.dl (build_path email f)).1 < 400) :
    download_user_csvs r email = .ok
      ((r.lsFiles.filter (fun g => str_endswith g.filename csvSuffix)).map
        (fun f => (r.dl (build_path email f)).2)) := by
  have hmap := executorMap_all_ok (download_csv r) (fun p => (r.dl p).2)
    ((r.lsFiles.filter (fun g => str_endswith g.filename csvSuffix)).map
      (build_path email))
    (by
      intro p hp
      rcases List.mem_map.mp hp with ⟨f, hf, hfp⟩
      subst hfp
      simp [download_csv, raise_for_status, Nat.not_le.mpr (hok f hf)])
  have hlist : list_user_csvs r email = .ok
      (r.lsFiles.filter (fun g => str_endswith g.filename csvSuffix)) := by
    simp [list_user_csvs, raise_for_status, Nat.not_le.mpr hls]
  simp only [download_user_csvs, download_inputs, hlist, hmap, List.map_map]
  rfl

/-- C9 witness: two CSV files and one other file; the result lists the two
parsed CSV contents in listing order. -/
theorem c9_witness : download_user_csvs rTwoGood ("e") =
    .ok [dfHistA, dfHistB] := by
  rw [c9_download_order_preserved rTwoGood ("e") (by decide) (by decide)]
  decide

/-- C10: self-exclusion compares nothing but the key column; any historical
frame whose key-column sequence equals the batchs is dropped from the foreign
list even when its other columns and values differ. -/
theorem c10_exclusion_ignores_other_columns (new_df df : DataFrame)
    (existing_dfs : List DataFrame) (dedupe_key : String) (l : List DataFrame)
    (hmem : df ∈ existing_dfs)
    (hl : foreign_existing_dfs new_df existing_dfs dedupe_key = .ok l)
    (heq : keyColumn df dedupe_key = keyColumn new_df dedupe_key) :
    df ∉ l :=
  excluded_of_keyColumn_eq hl hmem heq

/-- C10 witness: a frame agreeing with the upload only on the `md5` column,
with a different second column, is still excluded from the foreign list. -/
theorem c10_witness : dfWideTwin ∉ [dfZOnly] :=
  c10_exclusion_ignores_other_columns dfWide dfWideTwin [dfWideTwin, dfZOnly]
    ("md5") [dfZOnly] (by decide) (by decide) (by decide)

end Deduper
